import Mathlib

/-!
Verification of the `KdlIdentifier` value type from `src/identifier.rs`
(kdl-rs), shallowly embedded in Lean 4.

The embedding follows the Rust source:
* `SourceSpan`, `KdlIdentifier` mirror the struct layout (with the
  `span` feature enabled, as in the source's own tests);
* `KdlIdentifier.eq` mirrors `impl PartialEq for KdlIdentifier`;
* `KdlIdentifier.hashStream` mirrors `impl Hash` as the data stream fed
  to the hasher (value then repr; span omitted, as in the source);
* `KdlIdentifier.display` mirrors `impl Display`;
* `KdlIdentifier.len`, `KdlIdentifier.is_empty`, `set_value`,
  `set_repr`, `clear_format`, `autoformat`, the `From` conversions and
  `parse` mirror the corresponding items.

The v2 grammar production `v2_parser::identifier` and the string
formatter `Display for KdlValue::String` live outside `src/`; they are
modelled from the spec where indicated (definitions whose doc comment
starts `Modelled from the spec:`).

Byte lengths use `String.utf8ByteSize`, matching Rust's `str::len`.
-/

/-- Mirror of `miette::SourceSpan` as used here: a byte `(offset, length)`
range into the original input. -/
structure SourceSpan where
  offset : Nat
  length : Nat
deriving DecidableEq, Repr

/-- Mirror of `struct KdlIdentifier` (with the `span` feature on):
the decoded semantic `value`, the optional verbatim source spelling
`repr`, and the source `span`. -/
structure KdlIdentifier where
  value : String
  repr : Option String
  span : SourceSpan
deriving DecidableEq, Repr

/-- Mirror of `impl PartialEq for KdlIdentifier`: compares `value` and
`repr`; `span` is intentionally omitted, as in the source. -/
def KdlIdentifier.eq (a b : KdlIdentifier) : Bool :=
  a.value == b.value && a.repr == b.repr

/-- Mirror of `impl Hash for KdlIdentifier`: the implementation feeds
`value` and then `repr` to the hasher and intentionally omits `span`.
We model the hash as the stream of data fed to the hasher; any concrete
hasher's output is a function of this stream, so equal streams yield
equal hashes. -/
def KdlIdentifier.hashStream (a : KdlIdentifier) : String × Option String :=
  (a.value, a.repr)

/-- Mirror of `KdlIdentifier::set_value`: replaces `value`, leaving
`repr` and `span` untouched. -/
def KdlIdentifier.set_value (a : KdlIdentifier) (v : String) : KdlIdentifier :=
  { a with value := v }

/-- Mirror of `KdlIdentifier::set_repr`. -/
def KdlIdentifier.set_repr (a : KdlIdentifier) (r : String) : KdlIdentifier :=
  { a with repr := some r }

/-- Mirror of `KdlIdentifier::clear_format`: drops the stored
representation. -/
def KdlIdentifier.clear_format (a : KdlIdentifier) : KdlIdentifier :=
  { a with repr := none }

/-- Mirror of `KdlIdentifier::autoformat`: identical body to
`clear_format` in the source. -/
def KdlIdentifier.autoformat (a : KdlIdentifier) : KdlIdentifier :=
  { a with repr := none }

/-- Modelled from the spec: the character classes a bare (unquoted)
identifier token may not contain. The spec requires rejecting internal
whitespace; quote and backslash characters delimit/escape quoted tokens
and cannot appear bare. (`v2_parser`'s character tables are not under
`src/`.) -/
def illegalBareChar (c : Char) : Bool :=
  c == ' ' || c == '\t' || c == '\n' || c == '\r' || c == '"' || c == '\\'

/-- Modelled from the spec: the bare-identifier legality check of the
current-generation grammar (`v2_parser::identifier`, not under `src/`).
A bare token is nonempty, does not start with a digit (ambiguous with
numeric literals), and contains no whitespace or quote/escape
characters. -/
def bareIdentOk (s : String) : Bool :=
  match s.data with
  | [] => false
  | c :: _ => !c.isDigit && s.data.all (fun d => !illegalBareChar d)

/-- Modelled from the spec: decoding of a single backslash escape inside
a quoted token. At minimum `\"` decodes to an embedded quote; `\\`,
`\n`, `\t`, `\r` are the other standard escapes. Unknown escapes are a
parse failure. -/
def escChar (c : Char) : Option Char :=
  if c = '"' then some '"'
  else if c = '\\' then some '\\'
  else if c = 'n' then some '\n'
  else if c = 't' then some '\t'
  else if c = 'r' then some '\r'
  else none

/-- Modelled from the spec: decoding of the body of a quoted token
(the characters after the opening `"`). Succeeds with the decoded
characters only if a closing `"` is found and ends the input exactly;
an unterminated quoted token is a failure. -/
def decodeQuotedBody : List Char → Option (List Char)
  | [] => none
  | '"' :: rest => if rest.isEmpty then some [] else none
  | '\\' :: rest =>
    match rest with
    | [] => none
    | c :: rest2 =>
      match escChar c with
      | some e => (decodeQuotedBody rest2).map (e :: ·)
      | none => none
  | c :: rest => (decodeQuotedBody rest).map (c :: ·)

/-- Mirror of `KdlError`: the current-generation parse diagnostic with a
message and the offending span. (The full error type lives outside
`src/`; the spec describes it as a message plus source span.) -/
structure KdlError where
  message : String
  span : SourceSpan
deriving DecidableEq, Repr

/-- Modelled from the spec: the current-generation (`v2`) identifier
parse, `v2_parser::try_parse(v2_parser::identifier, s)` (not under
`src/`). A token starting with `"` is decoded as a quoted token (escape
sequences decoded into `value`, the delimited text kept verbatim as
`repr`); otherwise the whole text must be a legal bare token, kept as
both `value` and `repr`. Spans follow the source's own tests: `(0, len)`
for a bare token, `(0, 0)` for a quoted one. -/
def identifierParseV2 (s : String) : Except KdlError KdlIdentifier :=
  match s.data with
  | '"' :: rest =>
    match decodeQuotedBody rest with
    | some v => .ok ⟨⟨v⟩, some s, ⟨0, 0⟩⟩
    | none => .error ⟨"expected valid string", ⟨0, s.utf8ByteSize⟩⟩
  | _ =>
    if bareIdentOk s then .ok ⟨s, some s, ⟨0, s.utf8ByteSize⟩⟩
    else .error ⟨"expected identifier", ⟨0, s.utf8ByteSize⟩⟩

/-- Mirror of `KdlIdentifier::parse` without the `v1-fallback` feature:
delegates to the current-generation parse. -/
def KdlIdentifier.parse (s : String) : Except KdlError KdlIdentifier :=
  identifierParseV2 s

/-- Mirror of the legacy (`kdlv1`) error type, opaque per the spec. -/
structure KdlV1Error where
  message : String
deriving DecidableEq, Repr

/-- Mirror of `KdlIdentifier::parse` with the `v1-fallback` feature:
`try_parse(v2, s).or_else(|e| parse_v1(s).map_err(|_| e))`. The legacy
parser (composed with the `From<kdlv1::KdlIdentifier>` conversion) is an
opaque external collaborator per the spec, so it is a parameter. On
double failure the legacy error is discarded and the v2 error `e` is
returned. -/
def parseWithFallback (v1 : String → Except KdlV1Error KdlIdentifier)
    (s : String) : Except KdlError KdlIdentifier :=
  match identifierParseV2 s with
  | .ok id => .ok id
  | .error e =>
    match v1 s with
    | .ok id1 => .ok id1
    | .error _ => .error e

/-- Modelled from the spec: escaping of one character by the format's
standard string-quoting algorithm (`Display for KdlValue::String`, not
under `src/`): an embedded quote or backslash gets a backslash escape,
everything else is emitted as-is. -/
def escapeChar (c : Char) : List Char :=
  if c = '"' then ['\\', '"']
  else if c = '\\' then ['\\', '\\']
  else [c]

/-- Modelled from the spec: the body of the quoted form of a string
literal. -/
def escapeString (s : String) : String :=
  ⟨s.data.flatMap escapeChar⟩

/-- Modelled from the spec: the quoted/escaped form of a string
literal. -/
def quoteString (s : String) : String :=
  "\"" ++ escapeString s ++ "\""

/-- Modelled from the spec: `Display for KdlValue::String` (not under
`src/`), the format's standard string-quoting algorithm. The bare
unquoted form is used exactly when the bare-identifier legality check
accepts the string; otherwise the quoted/escaped form is emitted. -/
def fmtStringValue (s : String) : String :=
  if bareIdentOk s then s else quoteString s

/-- Mirror of `impl Display for KdlIdentifier`: if a `repr` is stored it
is written verbatim; otherwise the `value` is written as the string
value `KdlValue::String(value)`. -/
def KdlIdentifier.display (a : KdlIdentifier) : String :=
  match a.repr with
  | some r => r
  | none => fmtStringValue a.value

/-- Mirror of `KdlIdentifier::len`: the byte length of the rendered
(`Display`) form, `format!("{self}").len()`. -/
def KdlIdentifier.len (a : KdlIdentifier) : Nat :=
  a.display.utf8ByteSize

/-- Mirror of `KdlIdentifier::is_empty`: `self.len() == 0`. -/
def KdlIdentifier.is_empty (a : KdlIdentifier) : Bool :=
  a.len == 0

/-- Mirror of `impl From<&str> for KdlIdentifier` and
`impl From<String> for KdlIdentifier` (identical fields): the plain
string becomes `value`, `repr` is `none`, the span is `0..0`. -/
def KdlIdentifier.fromString (s : String) : KdlIdentifier :=
  ⟨s, none, ⟨0, 0⟩⟩

/-- Mirror of `impl From<KdlIdentifier> for String`: yields `value`,
discarding `repr` and `span`. -/
def KdlIdentifier.intoString (a : KdlIdentifier) : String :=
  a.value

/-! ## Theorems -/

/-- C1: for every text `t` accepted by the current-generation grammar,
the identifier returned by `parse t` renders (via `Display`) back to
exactly `t` when no setter has been called between parsing and
rendering. -/
theorem parse_display_round_trip (t : String) (id : KdlIdentifier)
    (h : KdlIdentifier.parse t = .ok id) : id.display = t := by
  unfold KdlIdentifier.parse identifierParseV2 at h
  split at h
  · split at h
    · cases h; rfl
    · cases h
  · split at h
    · cases h; rfl
    · cases h

/-- Witness for C1 at the concrete accepted input `"foo"`. -/
theorem parse_display_round_trip_witness :
    (KdlIdentifier.mk "foo" (some "foo") ⟨0, 3⟩).display = "foo" :=
  parse_display_round_trip "foo" _ rfl

/-- C2: `a == b` iff `a.value = b.value` and `a.repr = b.repr` (span
ignored); whenever `a == b`, the data fed to the hasher is equal (so the
hashes are); and two identifiers with equal value and repr but different
spans compare equal and hash equal. -/
theorem eq_hash_contract :
    (∀ a b : KdlIdentifier,
      a.eq b = true ↔ a.value = b.value ∧ a.repr = b.repr) ∧
    (∀ a b : KdlIdentifier, a.eq b = true → a.hashStream = b.hashStream) ∧
    (∀ (v : String) (r : Option String) (s₁ s₂ : SourceSpan),
      (KdlIdentifier.mk v r s₁).eq (KdlIdentifier.mk v r s₂) = true ∧
      (KdlIdentifier.mk v r s₁).hashStream = (KdlIdentifier.mk v r s₂).hashStream) := by
  refine ⟨fun a b => ?_, fun a b h => ?_, fun v r s₁ s₂ => ?_⟩
  · simp [KdlIdentifier.eq]
  · simp only [KdlIdentifier.eq, Bool.and_eq_true, beq_iff_eq] at h
    simp [KdlIdentifier.hashStream, h.1, h.2]
  · simp [KdlIdentifier.eq, KdlIdentifier.hashStream]

/-- Witness for C2: two concrete identifiers with equal value and repr
but different spans have equal hash streams. -/
theorem eq_hash_contract_witness :
    (KdlIdentifier.mk "foo" (some "foo") ⟨0, 3⟩).hashStream =
      (KdlIdentifier.mk "foo" (some "foo") ⟨7, 3⟩).hashStream :=
  eq_hash_contract.2.1 _ _ (by decide)

/-- C3: with legacy fallback enabled, when both the current-generation
parse and the legacy parse of `s` fail, `parse` returns the
current-generation error `e`; the legacy error `e₁` is never surfaced. -/
theorem fallback_error_shadowing
    (v1 : String → Except KdlV1Error KdlIdentifier) (s : String)
    (e : KdlError) (e₁ : KdlV1Error)
    (hv2 : identifierParseV2 s = .error e) (hv1 : v1 s = .error e₁) :
    parseWithFallback v1 s = .error e := by
  unfold parseWithFallback
  rw [hv2, hv1]

/-- Witness for C3: a concrete legacy parser that always fails, on the
input `"123"` that the current-generation grammar also rejects. -/
theorem fallback_error_shadowing_witness :
    parseWithFallback (fun _ => .error ⟨"legacy"⟩) "123" =
      .error ⟨"expected identifier", ⟨0, 3⟩⟩ :=
  fallback_error_shadowing (fun _ => .error ⟨"legacy"⟩) "123"
    ⟨"expected identifier", ⟨0, 3⟩⟩ ⟨"legacy"⟩ rfl rfl

/-- C4: `parse` rejects a token starting with a digit, a token
consisting only of whitespace (with internal whitespace), and an
unterminated quoted token — returning an error, never a partial
identifier. -/
theorem parse_rejects_invalid :
    (∃ e, KdlIdentifier.parse "123" = .error e) ∧
    (∃ e, KdlIdentifier.parse "   space   " = .error e) ∧
    (∃ e, KdlIdentifier.parse "\"x" = .error e) :=
  ⟨⟨⟨"expected identifier", ⟨0, 3⟩⟩, rfl⟩,
   ⟨⟨"expected identifier", ⟨0, 11⟩⟩, rfl⟩,
   ⟨⟨"expected valid string", ⟨0, 2⟩⟩, rfl⟩⟩

/-- C5: rendering emits a present `repr` verbatim; with `repr` absent it
emits `value` via the format's standard string-quoting algorithm —
the bare form exactly when `value` passes the bare-identifier legality
check, the quoted/escaped form otherwise. -/
theorem display_repr_verbatim_else_quoting (a : KdlIdentifier) :
    (∀ r, a.repr = some r → a.display = r) ∧
    (a.repr = none →
      a.display = fmtStringValue a.value ∧
      (bareIdentOk a.value = true → a.display = a.value) ∧
      (bareIdentOk a.value = false → a.display = quoteString a.value)) := by
  refine ⟨fun r hr => ?_, fun hn => ?_⟩
  · simp [KdlIdentifier.display, hr]
  · refine ⟨by simp [KdlIdentifier.display, hn], fun hb => ?_, fun hb => ?_⟩
    · simp [KdlIdentifier.display, hn, fmtStringValue, hb]
    · simp [KdlIdentifier.display, hn, fmtStringValue, hb]

/-- Witness for C5: a custom repr (which does not decode to the value)
is emitted verbatim; a bare-legal value renders bare; a value with an
embedded quote renders quoted. -/
theorem display_repr_verbatim_else_quoting_witness :
    (KdlIdentifier.mk "foo" (some "\"foo/bar\"") ⟨0, 0⟩).display = "\"foo/bar\"" ∧
    (KdlIdentifier.mk "foo" none ⟨0, 0⟩).display = "foo" ∧
    (KdlIdentifier.mk "foo\"bar" none ⟨0, 0⟩).display = quoteString "foo\"bar" :=
  ⟨(display_repr_verbatim_else_quoting _).1 _ rfl,
   ((display_repr_verbatim_else_quoting _).2 rfl).2.1 rfl,
   ((display_repr_verbatim_else_quoting _).2 rfl).2.2 rfl⟩

/-- C6: parsing the quoted token `"foo\"bar"` succeeds with the escape
decoded into `value = foo"bar` while `repr` keeps the original delimited
text verbatim, quotes and escapes included. -/
theorem quoted_parse_decodes_escapes :
    KdlIdentifier.parse "\"foo\\\"bar\"" =
      .ok ⟨"foo\"bar", some "\"foo\\\"bar\"", ⟨0, 0⟩⟩ := rfl

/-- C7: constructing an identifier from a plain string `s` yields
`value = s`, no repr, the empty span, with no validation; converting
back yields `value`, so String → Identifier → String is the identity. -/
theorem fromString_intoString_round_trip (s : String) :
    (KdlIdentifier.fromString s).value = s ∧
    (KdlIdentifier.fromString s).repr = none ∧
    (KdlIdentifier.fromString s).span = ⟨0, 0⟩ ∧
    (∀ a : KdlIdentifier, a.intoString = a.value) ∧
    (KdlIdentifier.fromString s).intoString = s :=
  ⟨rfl, rfl, rfl, fun _ => rfl, rfl⟩

/-- C8: `len` is the byte length of the rendered (`Display`) form, not
of `value`; `is_empty` holds iff `len = 0`; with a repr set, `len` is
the repr's byte length regardless of `value`. -/
theorem len_is_rendered_byte_length (a : KdlIdentifier) :
    a.len = a.display.utf8ByteSize ∧
    (a.is_empty = true ↔ a.len = 0) ∧
    (∀ r, a.repr = some r → a.len = r.utf8ByteSize) := by
  refine ⟨rfl, by simp [KdlIdentifier.is_empty], fun r hr => ?_⟩
  simp [KdlIdentifier.len, KdlIdentifier.display, hr]

/-- Witness for C8: an identifier whose repr is set has `len` equal to
the repr's byte length (here 9), regardless of its 3-byte value. -/
theorem len_is_rendered_byte_length_witness :
    (KdlIdentifier.mk "foo" (some "\"foo/bar\"") ⟨0, 0⟩).len =
      ("\"foo/bar\"" : String).utf8ByteSize :=
  (len_is_rendered_byte_length _).2.2 _ rfl

/-- C9: `set_value` modifies only `value`; `repr` and `span` are
unchanged, so when a repr is stored, rendering still emits the old repr
verbatim and `Display` is unchanged. -/
theorem set_value_frame (a : KdlIdentifier) (v : String) :
    (a.set_value v).value = v ∧
    (a.set_value v).repr = a.repr ∧
    (a.set_value v).span = a.span ∧
    (∀ r, a.repr = some r →
      (a.set_value v).display = r ∧ (a.set_value v).display = a.display) := by
  refine ⟨rfl, rfl, rfl, fun r hr => ?_⟩
  constructor
  · simp [KdlIdentifier.display, KdlIdentifier.set_value, hr]
  · simp [KdlIdentifier.display, KdlIdentifier.set_value, hr]

/-- Witness for C9: after `set_value "zzz"` on an identifier with a
stored repr, `Display` still emits the old repr verbatim. -/
theorem set_value_frame_witness :
    ((KdlIdentifier.mk "foo" (some "\"foo/bar\"") ⟨0, 0⟩).set_value "zzz").display
      = "\"foo/bar\"" :=
  (((set_value_frame (KdlIdentifier.mk "foo" (some "\"foo/bar\"") ⟨0, 0⟩)
      "zzz").2.2.2) _ rfl).1

/-- C10: the identifier built from the empty plain string renders as the
quoted empty string of byte length 2, so `len = 2` and `is_empty` is
`false` even though `value` is empty. -/
theorem empty_fromString_renders_quoted :
    (KdlIdentifier.fromString "").display = "\"\"" ∧
    (KdlIdentifier.fromString "").len = 2 ∧
    (KdlIdentifier.fromString "").is_empty = false :=
  ⟨rfl, rfl, rfl⟩
